import Mathlib

/-!
# Verification of the record-ext capture/replay core

Shallow embedding of the locator generator/resolver (content script,
`src/unnamed/part_000`), the step capture engine (same file), the replay
state machine and cross-context messenger (`src/unnamed/part_003`).

JavaScript strings are modelled as Lean `String` (the ids and attribute
values involved are ASCII or BMP text, for which JS UTF-16 `length` and
Lean `String.length` agree). JS truthiness of a string is `s ≠ ""`;
a nullable attribute is `Option String` with `none` for `null`.
Single-threaded event-handler code is modelled as a pure state transition
executed atomically at one clock instant.
-/

namespace RecordExt

/-- JS `String.prototype.includes`: `hay.includes needle` tests substring
containment, modelled on the character list. -/
def strIncludes (hay needle : String) : Bool :=
  hay.toList.tails.any (fun t => needle.toList.isPrefixOf t)

/-- ASCII lower-casing of one character, the effect of JS `toLowerCase`
on the ASCII attribute values involved. -/
def lowerChar (c : Char) : Char :=
  if 'A' ≤ c && c ≤ 'Z' then Char.ofNat (c.toNat + 32) else c

/-- JS `toLowerCase`, character-wise. -/
def toLowerStr (s : String) : String := String.mk (s.toList.map lowerChar)

/-- JS `String.prototype.trim` (ASCII whitespace). -/
def trimStr (s : String) : String :=
  String.mk
    (((s.toList.dropWhile Char.isWhitespace).reverse.dropWhile
      Char.isWhitespace).reverse)

/-- JS `String.prototype.split` with a one-character separator. -/
def splitChar (sep : Char) (s : String) : List String :=
  (s.toList.foldr
    (fun c acc =>
      match acc with
      | [] => [[c]]
      | a :: as => if c = sep then [] :: a :: as else (c :: a) :: as)
    [[]]).map String.mk

/-- `Array.prototype.join('.')` over the class-name list. -/
def joinDots (l : List String) : String :=
  String.mk (((l.map String.toList).intersperse ".".toList).flatten)

/-- Splits `hay` at the first occurrence of `sep`, returning the part
before it and the part after it; `none` when `sep` does not occur. -/
def splitFirst (sep : List Char) : List Char → Option (List Char × List Char)
  | [] => if sep.isPrefixOf ([] : List Char) then some ([], []) else none
  | c :: t =>
    if sep.isPrefixOf (c :: t) then some ([], (c :: t).drop sep.length)
    else
      match splitFirst sep t with
      | some (pre, post) => some (c :: pre, post)
      | none => none

/-- Lowercase hex digit, the character class `[a-f0-9]` of the
`isDynamicId` regexes. -/
def isLowerHexDigit (c : Char) : Bool :=
  ('a' ≤ c && c ≤ 'f') || ('0' ≤ c && c ≤ '9')

/-- The character class `[a-zA-Z0-9]` of the `isDynamicId` regexes. -/
def isAsciiAlnum (c : Char) : Bool :=
  ('a' ≤ c && c ≤ 'z') || ('A' ≤ c && c ≤ 'Z') || ('0' ≤ c && c ≤ '9')

/-- The unanchored regex `/radix-«[^»]+»/` from `isDynamicId`
(`part_000` line 165): the string contains `radix-«`, followed by at
least one character other than `»`, followed (after further non-`»`
characters) by `»`. A match starting at a given occurrence of `radix-«`
exists iff the character right after `«` is not `»` and some `»` occurs
later, so the test is over all suffixes. -/
def radixPatternTest (id : String) : Bool :=
  id.toList.tails.any (fun t =>
    "radix-«".toList.isPrefixOf t &&
      (match t.drop 7 with
       | [] => false
       | c :: cs => c ≠ '»' && cs.contains '»'))

/-- `isDynamicId` (`part_000` lines 163-176): `dynamicPatterns.some`,
each anchored regex `^[...]{n,}$` translated as a length bound plus a
character-class check, each `^prefix` as `String.isPrefixOf`. -/
def isDynamicId (id : String) : Bool :=
  radixPatternTest id ||
  (id.length ≥ 8 && id.toList.all isLowerHexDigit) ||
  (id.length ≥ 20 && id.toList.all isAsciiAlnum) ||
  (id.length ≥ 20 && id.toList.all (fun c => isLowerHexDigit c || c = '-')) ||
  "react-select".toList.isPrefixOf id.toList ||
  "mui-".toList.isPrefixOf id.toList ||
  "chakra-".toList.isPrefixOf id.toList ||
  "rc-".toList.isPrefixOf id.toList

/-- One candidate locator, the tagged records pushed by `generateLocators`
(`part_000` lines 179-283): each constructor carries exactly the payload
fields the source stores for that `type`. -/
inductive Locator where
  | role (role name : String)
  | testid (value : String)
  | id (value : String)
  | href (path : String)
  | title (value : String)
  | text (content : String)
  | webSearch (description : String)
  | composerPlus (description : String)
  | css (selector : String)
  | xpath (path : String)
deriving DecidableEq, Repr

/-- The `type` discriminator of a `Locator`. -/
inductive LocKind where
  | role | testid | id | href | title | text | webSearch | composerPlus
  | css | xpath
deriving DecidableEq, Repr

def Locator.kind : Locator → LocKind
  | .role _ _ => .role
  | .testid _ => .testid
  | .id _ => .id
  | .href _ => .href
  | .title _ => .title
  | .text _ => .text
  | .webSearch _ => .webSearch
  | .composerPlus _ => .composerPlus
  | .css _ => .css
  | .xpath _ => .xpath

/-- Position of each locator kind in the fixed emission order of
`generateLocators` (smaller = emitted earlier = higher priority). -/
def LocKind.rank : LocKind → Nat
  | .role => 0
  | .testid => 1
  | .id => 2
  | .href => 3
  | .title => 4
  | .text => 5
  | .webSearch => 6
  | .composerPlus => 7
  | .css => 8
  | .xpath => 9

/-- Sibling/ancestry information `generateSimpleXPath` reads from one DOM
node while walking `parentNode` links: the node's `tagName`, the tag names
of its previous element siblings (nearest first), and whether it has a
next element sibling. -/
structure AncestorEntry where
  tagName : String
  prevTags : List String
  hasNext : Bool
deriving DecidableEq, Repr

/-- A capture-time DOM element, carrying exactly the observations the
generator makes: `getAttribute` (as a partial map, `none` = `null`),
the `id`/`tagName`/`className`/`textContent` properties, the resolved
`href` property (`none` when absent, always an absolute URL when real),
and the element-node entries of the self-then-ancestors chain used by the
XPath walk. -/
structure Element where
  attrs : String → Option String
  id : String
  tagName : String
  href : Option String
  className : String
  textContent : String
  chain : List AncestorEntry

/-- The `title` property of an HTML element reflects its `title`
attribute, defaulting to the empty string. -/
def Element.title (e : Element) : String := (e.attrs "title").getD ""

/-- JS `a || b` for a nullable string `a`: the attribute value when
present and non-empty (truthy), else `b`. -/
def jsOrStr (a : Option String) (b : String) : String :=
  match a with
  | some s => if s = "" then b else s
  | none => b

/-- JS truthiness of `getAttribute(name)`: `some` exactly when the
attribute is present and non-empty. -/
def attrTruthy (e : Element) (name : String) : Option String :=
  match e.attrs name with
  | some s => if s = "" then none else some s
  | none => none

/-- Suffix of `hay` following the first occurrence of `needle`,
`none` when `needle` does not occur. -/
def dropAfterSub (needle : List Char) : List Char → Option (List Char)
  | [] => if needle.isPrefixOf ([] : List Char) then some [] else none
  | c :: t =>
    if needle.isPrefixOf (c :: t) then some ((c :: t).drop needle.length)
    else dropAfterSub needle t

/-- `new URL(href).pathname` for an absolute `http(s)` URL: the part after
the authority up to `?` or `#`, defaulting to `/` (the WHATWG minimum for
special schemes). -/
def urlPathname (url : String) : String :=
  let rest := (dropAfterSub "://".toList url.toList).getD url.toList
  let path := (rest.dropWhile (fun c => c ≠ '/')).takeWhile
    (fun c => c ≠ '?' && c ≠ '#')
  if path = [] then "/" else String.mk path

/-- `isWebSearchButton` (`part_000` lines 298-330): a disjunction of
lower-cased substring checks over text / aria-label / title / data-testid,
plus the `menuitemradio` role check. -/
def isWebSearchButton (e : Element) : Bool :=
  let text := toLowerStr e.textContent
  let ariaLabel := ((e.attrs "aria-label").map toLowerStr).getD ""
  let titleA := ((e.attrs "title").map toLowerStr).getD ""
  let dataTestId := ((e.attrs "data-testid").map toLowerStr).getD ""
  let role := e.attrs "role"
  strIncludes text "web search" || strIncludes text "search the web" ||
  strIncludes ariaLabel "web search" ||
  strIncludes ariaLabel "search the web" ||
  strIncludes titleA "web search" || strIncludes titleA "search the web" ||
  strIncludes dataTestId "web-search" ||
  strIncludes dataTestId "search-web" ||
  (role = some "menuitemradio" && strIncludes text "web search")

/-- `isComposerPlusButton` (`part_000` lines 286-295). -/
def isComposerPlusButton (e : Element) : Bool :=
  let dataTestId := e.attrs "data-testid"
  let ariaLower := (e.attrs "aria-label").map toLowerStr
  dataTestId = some "composer-plus-btn" ||
  strIncludes e.className "composer-btn" ||
  (match ariaLower with | some l => strIncludes l "plus" | none => false) ||
  (match ariaLower with | some l => strIncludes l "add" | none => false)

/-- Structural fallback of `generateCSSSelector` (`part_000` lines
341-359): lower-cased tag, up to three classes of length > 2, an
`href*=` predicate on the last `/`-segment of the `href` property, and a
`title=` predicate. -/
def cssStructural (e : Element) : String :=
  let selector := toLowerStr e.tagName
  let classes := (splitChar ' ' e.className).filter
    (fun c => trimStr c ≠ "" && c.length > 2)
  let selector :=
    if classes ≠ [] then
      selector ++ "." ++ joinDots (classes.take 3)
    else selector
  let selector :=
    match e.href with
    | some h =>
      if h ≠ "" then
        selector ++ "[href*=\"" ++ (((splitChar '/' h).getLast?).getD "") ++ "\"]"
      else selector
    | none => selector
  if e.title ≠ "" then selector ++ "[title=\"" ++ e.title ++ "\"]"
  else selector

/-- `generateCSSSelector` (`part_000` lines 332-360): test-id first, then
non-dynamic id, else the structural selector. Modelled as total (the JS
caller wraps it in try/catch; in this model no branch throws). -/
def generateCSSSelector (e : Element) : String :=
  match attrTruthy e "data-testid" with
  | some v => "[data-testid=\"" ++ v ++ "\"]"
  | none =>
    if e.id ≠ "" && !isDynamicId e.id then "#" ++ e.id
    else cssStructural e

/-- One step of the positional XPath walk: lower-cased tag plus a
`[position]` predicate when the node has element siblings, where the
position counts previous siblings with the same (raw) `tagName`. -/
def xpathStep (entry : AncestorEntry) : String :=
  let selector := toLowerStr entry.tagName
  if entry.prevTags ≠ [] || entry.hasNext then
    selector ++ "[" ++
      toString (1 + entry.prevTags.countP (fun t => t = entry.tagName)) ++ "]"
  else selector

/-- The `while` loop of `generateSimpleXPath` (`part_000` lines 371-394):
prepend one step per element-node ancestor, up to depth 5. -/
def xpathWalk : Nat → List AncestorEntry → String
  | 0, _ => ""
  | _, [] => ""
  | Nat.succ d, entry :: rest => xpathWalk d rest ++ "/" ++ xpathStep entry

/-- `generateSimpleXPath` (`part_000` lines 362-397). -/
def generateSimpleXPath (e : Element) : String :=
  match attrTruthy e "data-testid" with
  | some v => "//*[@data-testid=\"" ++ v ++ "\"]"
  | none =>
    if e.id ≠ "" && !isDynamicId e.id then "//*[@id=\"" ++ e.id ++ "\"]"
    else xpathWalk 5 e.chain

/-- The `role` push of `generateLocators` (`part_000` lines 183-193):
requires a truthy `role` attribute and a name derived as
`getAttribute('name') || getAttribute('aria-label') || textContent.trim()`. -/
def roleLocators (e : Element) : List Locator :=
  match attrTruthy e "role" with
  | none => []
  | some role =>
    let name := jsOrStr (e.attrs "name") (jsOrStr (e.attrs "aria-label")
      (trimStr e.textContent))
    if name = "" then [] else [.role role name]

/-- The `data-testid` push (`part_000` lines 195-200). -/
def testidLocators (e : Element) : List Locator :=
  match attrTruthy e "data-testid" with
  | none => []
  | some v => [.testid v]

/-- The `id` push (`part_000` lines 202-207): truthy id, not dynamic. -/
def idLocators (e : Element) : List Locator :=
  if e.id ≠ "" && !isDynamicId e.id then [.id e.id] else []

/-- The `href` push for anchors (`part_000` lines 210-220): stores
`new URL(href).pathname` when it is neither empty nor `/`. -/
def hrefLocators (e : Element) : List Locator :=
  if e.tagName = "A" then
    match e.href with
    | some h =>
      if h = "" then []
      else
        let path := urlPathname h
        if path ≠ "" && path ≠ "/" then [.href path] else []
    | none => []
  else []

/-- The `title` push (`part_000` lines 223-228). -/
def titleLocators (e : Element) : List Locator :=
  if e.title ≠ "" then [.title e.title] else []

/-- The `text` push (`part_000` lines 231-239): truthy `textContent`
whose trim is truthy and shorter than 100 characters. -/
def textLocators (e : Element) : List Locator :=
  if e.textContent ≠ "" && trimStr e.textContent ≠ "" then
    let text := trimStr e.textContent
    if text.length > 0 && text.length < 100 then [.text text] else []
  else []

/-- The `web-search` push (`part_000` lines 241-246). -/
def webSearchLocators (e : Element) : List Locator :=
  if isWebSearchButton e then [.webSearch "Web search button"] else []

/-- The `composer-plus` push (`part_000` lines 249-254). -/
def composerPlusLocators (e : Element) : List Locator :=
  if isComposerPlusButton e then [.composerPlus "Composer plus button"] else []

/-- The `css` push (`part_000` lines 256-266): emitted when the generated
selector is truthy; the try/catch is modelled by the generator being
total. -/
def cssLocators (e : Element) : List Locator :=
  let c := generateCSSSelector e
  if c ≠ "" then [.css c] else []

/-- The `xpath` push (`part_000` lines 269-279). -/
def xpathLocators (e : Element) : List Locator :=
  let x := generateSimpleXPath e
  if x ≠ "" then [.xpath x] else []

/-- `generateLocators` (`part_000` lines 179-283): the ten pushes in
source order. -/
def generateLocators (e : Element) : List Locator :=
  roleLocators e ++ testidLocators e ++ idLocators e ++ hrefLocators e ++
  titleLocators e ++ textLocators e ++ webSearchLocators e ++
  composerPlusLocators e ++ cssLocators e ++ xpathLocators e

/-- A plain `div#a1b2c3d4e5f6g7h8` with no other attributes, used as a
concrete capture-time element. -/
def exampleIdElem : Element where
  attrs := fun _ => none
  id := "a1b2c3d4e5f6g7h8"
  tagName := "DIV"
  href := none
  className := ""
  textContent := ""
  chain := [⟨"DIV", [], false⟩]

/-- A replay-time DOM element as observed by `resolveLocator`: its
`textContent` and `aria-label` attribute. -/
structure ElemRef where
  textContent : String
  ariaLabel : Option String
deriving DecidableEq, Repr

/-- The live document as queried by `resolveLocator`.
`queryAll` models `document.querySelectorAll` (in document order;
`.error` models the exception a malformed selector raises);
`evaluateXPath` models `document.evaluate(..).singleNodeValue`.
`webSearchButton` / `composerPlusButton` are the results of the dedicated
finders `findWebSearchButton` (`part_000` lines 562-638, an escalating
fixed-selector/role/button-scan search) and `findComposerPlusButton`
(lines 534-560), abstracted as their element-or-null outcome. -/
structure Doc where
  queryAll : String → Except Unit (List ElemRef)
  evaluateXPath : String → Except Unit (Option ElemRef)
  webSearchButton : Option ElemRef
  composerPlusButton : Option ElemRef

/-- `document.querySelector`: first match of `querySelectorAll`. -/
def Doc.querySelector (doc : Doc) (s : String) :
    Except Unit (Option ElemRef) :=
  (doc.queryAll s).map List.head?

/-- What one resolution attempt hands back to the caller: the loop in
`resolveLocator` returns either a still-valid selector string or a live
element. -/
inductive Resolved where
  | sel (s : String)
  | elem (e : ElemRef)
deriving DecidableEq, Repr

def testidSelector (v : String) : String := "[data-testid=\"" ++ v ++ "\"]"

def roleNameSelector (r n : String) : String :=
  "[role=\"" ++ r ++ "\"][name=\"" ++ n ++ "\"]"

def roleAriaSelector (r n : String) : String :=
  "[role=\"" ++ r ++ "\"][aria-label=\"" ++ n ++ "\"]"

def roleSelector (r : String) : String := "[role=\"" ++ r ++ "\"]"

def idSelector (v : String) : String := "#" ++ v

def hrefSelector (p : String) : String := "a[href*=\"" ++ p ++ "\"]"

def titleSelector (v : String) : String := "[title=\"" ++ v ++ "\"]"

/-- The body of one iteration of the `for` loop of `resolveLocator`
(`part_000` lines 402-527): per-type resolution. `.ok (some r)` is a
`return` from the loop, `.ok none` falls through to the next candidate,
`.error` is an exception reaching the per-iteration `catch`. The `xpath`
branch has its own inner catch (lines 519-521), so an evaluation failure
there yields `.ok none`, not `.error`. -/
def tryResolveOne (doc : Doc) : Locator → Except Unit (Option Resolved)
  | .webSearch _ => .ok (doc.webSearchButton.map .elem)
  | .composerPlus _ => .ok (doc.composerPlusButton.map .elem)
  | .testid v =>
    if v = "" then .ok none
    else do
      let found ← doc.querySelector (testidSelector v)
      pure (if found.isSome then some (.sel (testidSelector v)) else none)
  | .role r n =>
    if r = "" || n = "" then .ok none
    else do
      let f1 ← doc.querySelector (roleNameSelector r n)
      if f1.isSome then pure (some (.sel (roleNameSelector r n)))
      else
        let f2 ← doc.querySelector (roleAriaSelector r n)
        if f2.isSome then pure (some (.sel (roleAriaSelector r n)))
        else
          let elems ← doc.queryAll (roleSelector r)
          pure ((elems.find? (fun el =>
            trimStr el.textContent = n || el.ariaLabel = some n)).map .elem)
  | .id v =>
    if v = "" then .ok none
    else do
      let found ← doc.querySelector (idSelector v)
      pure (if found.isSome then some (.sel (idSelector v)) else none)
  | .href p =>
    if p = "" then .ok none
    else do
      let found ← doc.querySelector (hrefSelector p)
      pure (if found.isSome then some (.sel (hrefSelector p)) else none)
  | .title v =>
    if v = "" then .ok none
    else do
      let found ← doc.querySelector (titleSelector v)
      pure (if found.isSome then some (.sel (titleSelector v)) else none)
  | .text c =>
    if c = "" then .ok none
    else do
      let elems ← doc.queryAll "*"
      pure ((elems.find? (fun el =>
        el.textContent ≠ "" && trimStr el.textContent = c)).map .elem)
  | .css s =>
    if s = "" then .ok none
    else do
      let found ← doc.querySelector s
      pure (if found.isSome then some (.sel s) else none)
  | .xpath p =>
    if p = "" then .ok none
    else
      match doc.evaluateXPath p with
      | .ok (some el) => .ok (some (.elem el))
      | .ok none => .ok none
      | .error _ => .ok none

/-- `resolveLocator` (`part_000` lines 399-532): try the candidates in
list order; a `return` inside the loop ends resolution, a fall-through or
a caught exception moves to the next candidate; exhausting the list
returns `null`. -/
def resolveLocator (doc : Doc) : List Locator → Option Resolved
  | [] => none
  | l :: rest =>
    match tryResolveOne doc l with
    | .ok (some r) => some r
    | .ok none => resolveLocator doc rest
    | .error _ => resolveLocator doc rest

/-- The variant payload of one captured step. -/
inductive StepAct where
  | navigate (url : String)
  | click (locators : List Locator)
  | type (text : String)
  | press (key : String)
deriving DecidableEq, Repr

/-- The `type` discriminator string stored into `lastRecordedEvent`. -/
def StepAct.typeName : StepAct → String
  | .navigate _ => "navigate"
  | .click _ => "click"
  | .type _ => "type"
  | .press _ => "press"

/-- One trace step: milliseconds since recording start plus the action. -/
structure Step where
  t : Nat
  act : StepAct
deriving DecidableEq, Repr

/-- State of the content-script `recorder` object (`part_000` lines
13-20) plus the module-level `lastUrl` of the MutationObserver (line
855). The debounce timer is `typingTimeout` (the handle, carrying the
text its callback closed over; JS nulls it only at the explicit
`clearTimeout` sites, not when the timer fires) together with
`timerLive` (whether a scheduled callback is still due). -/
structure CaptureState where
  isRecording : Bool
  startTime : Nat
  steps : List Step
  typingTimeout : Option String
  timerLive : Bool
  lastTypedText : String
  lastUrl : Option String
  lastRecordedEvent : Option String
  globalLastUrl : String
deriving Repr

/-- `addStep` (`part_000` lines 60-79): timestamp the step relative to
`startTime`, append it, remember its type; a no-op when not recording. -/
def addStep (now : Nat) (act : StepAct) (st : CaptureState) : CaptureState :=
  if st.isRecording then
    { st with
      steps := st.steps ++ [⟨now - st.startTime, act⟩],
      lastRecordedEvent := some act.typeName }
  else st

/-- `startRecording` (`part_000` lines 22-41), executed atomically at
clock instant `now`: reset, then unconditionally record the initial
`navigate` step. `typingTimeout`/`timerLive`/`lastTypedText` are
deliberately not reset, as in the source. -/
def startRecording (now : Nat) (url : String) (st : CaptureState) :
    CaptureState :=
  addStep now (.navigate url)
    { st with
      isRecording := true, startTime := now, steps := [],
      lastUrl := some url, lastRecordedEvent := none }

/-- `stopRecording` (`part_000` lines 43-58): stop, cancel any pending
debounce timer. -/
def stopRecording (st : CaptureState) : CaptureState :=
  { st with isRecording := false, typingTimeout := none, timerLive := false }

/-- `captureClick` (`part_000` lines 89-100). -/
def captureClick (now : Nat) (e : Element) (st : CaptureState) :
    CaptureState :=
  if st.isRecording then addStep now (.click (generateLocators e)) st
  else st

/-- `captureType` (`part_000` lines 102-126): on an input event on an
editable target, clear the previous debounce timer and schedule a new one
whose callback closes over the target's text at this instant. -/
def captureType (_now : Nat) (editable : Bool) (text : String)
    (st : CaptureState) : CaptureState :=
  if st.isRecording then
    if editable then { st with typingTimeout := some text, timerLive := true }
    else st
  else st

/-- The debounce timer firing (the `setTimeout` callback of `part_000`
lines 115-124): emit a `type` step when the captured text is truthy and
differs from the last emitted text. Firing does not null the JS handle;
here only `timerLive` is cleared. -/
def debounceFire (now : Nat) (st : CaptureState) : CaptureState :=
  if st.timerLive then
    match st.typingTimeout with
    | some txt =>
      let st' := { st with timerLive := false }
      if txt ≠ "" && txt ≠ st.lastTypedText then
        addStep now (.type txt) { st' with lastTypedText := txt }
      else st'
    | none => { st with timerLive := false }
  else st

def specialKeys : List String :=
  ["Enter", "Tab", "Escape", "ArrowUp", "ArrowDown", "ArrowLeft",
   "ArrowRight"]

/-- `captureKeyPress` (`part_000` lines 129-161): special keys are
recorded as `press` steps; Enter with a non-null debounce handle first
cancels the timer and force-flushes the target's current text when it is
editable, truthy and differs from the last emitted text. -/
def captureKeyPress (now : Nat) (key : String) (editable : Bool)
    (targetText : String) (st : CaptureState) : CaptureState :=
  if st.isRecording then
    if specialKeys.contains key then
      let st1 :=
        if key = "Enter" && st.typingTimeout.isSome then
          let st' := { st with typingTimeout := none, timerLive := false }
          if editable then
            if targetText ≠ "" && targetText ≠ st.lastTypedText then
              addStep now (.type targetText)
                { st' with lastTypedText := targetText }
            else st'
          else st'
        else st
      addStep now (.press key) st1
    else st
  else st

/-- `url.split('/c/')[1]`: the piece between the first and second
occurrence of `/c/` (to the end when there is no second occurrence),
`none` (JS `undefined`) when `/c/` does not occur. -/
def splitCPart (url : String) : Option String :=
  match splitFirst "/c/".toList url.toList with
  | none => none
  | some (_, post) =>
    match splitFirst "/c/".toList post with
    | none => some (String.mk post)
    | some (pre, _) => some (String.mk pre)

/-- The MutationObserver callback (`part_000` lines 856-890) at an
effective URL change: suppress the `navigate` step for a same-chat
ChatGPT URL or right after a recorded `press`, else record it. -/
def handleUrlChange (now : Nat) (url : String) (st : CaptureState) :
    CaptureState :=
  if url = st.globalLastUrl then st
  else
    let st := { st with globalLastUrl := url }
    let isChatGPT := strIncludes url "chatgpt.com" ||
      strIncludes url "openai.com"
    let isSameChat := isChatGPT &&
      (match st.lastUrl with
       | some lu =>
         lu ≠ "" && strIncludes lu "chatgpt.com" &&
           splitCPart url = splitCPart lu
       | none => false)
    let lastEventWasEnter := st.lastRecordedEvent = some "press"
    if st.isRecording && isChatGPT && (isSameChat || lastEventWasEnter) then
      { st with lastUrl := some url }
    else if st.isRecording && !isSameChat then
      let st := addStep now (.navigate url) st
      { st with lastUrl := some url }
    else if isSameChat then { st with lastUrl := some url }
    else st

/-- One observable capture-time occurrence, with the data the
corresponding handler reads from the event. -/
inductive CaptureEvent where
  | click (e : Element)
  | input (editable : Bool) (text : String)
  | fire
  | keydown (key : String) (editable : Bool) (targetText : String)
  | urlChange (url : String)

/-- Dispatch of one event at clock instant `now` to its handler. -/
def captureStep (now : Nat) : CaptureEvent → CaptureState → CaptureState
  | .click e => captureClick now e
  | .input ed tx => captureType now ed tx
  | .fire => debounceFire now
  | .keydown k ed tx => captureKeyPress now k ed tx
  | .urlChange u => handleUrlChange now u

/-- A recording session: the timestamped events after `startRecording`,
processed in order. -/
def runCapture : List (Nat × CaptureEvent) → CaptureState → CaptureState
  | [], st => st
  | (now, ev) :: rest, st => runCapture rest (captureStep now ev st)

/-- The replay-relevant state of the side-panel `Recorder`
(`part_003` lines 2-9): `isReplaying`, the loaded trace, the cursor. -/
structure ReplayState where
  isReplaying : Bool
  currentReplayStep : Nat
  replaySteps : List Step
deriving Repr

/-- Externally visible actions of one replay advance. -/
inductive ReplayEffect where
  | alertMsg (s : String)
  | navigateTab (url : String)
  | settleWait (ms : Nat)
  | resolveRequest (locators : List Locator)
  | sendClick (selector : String)
  | sendType (text : String)
  | sendKey (key : String)
  | logError
deriving DecidableEq, Repr

/-- The outcome of the `RESOLVE_LOCATOR` round-trip as seen by the panel
(`part_003` lines 235-261): the pushed-back selector, or `null` on
no-match or on the 5000 ms timeout. -/
structure ReplayEnv where
  resolve : List Locator → Option String

/-- `executeAction` (`part_003` lines 156-233) and its per-type helpers.
`executeClick` logs an error and returns normally when `resolveLocator`
yields `null` (lines 204-206); nothing in the click path throws, because
the panel-side `resolveLocator` promise only ever resolves and
`sendMessageToContentScript` absorbs its own failures (returns `null`).
Navigation is modelled as succeeding. -/
def executeAction (env : ReplayEnv) (step : Step) : List ReplayEffect :=
  match step.act with
  | .navigate url =>
    if url ≠ "" then [.navigateTab url, .settleWait 3000] else []
  | .click locs =>
    match env.resolve locs with
    | some sel => [.resolveRequest locs, .sendClick sel]
    | none => [.resolveRequest locs, .logError]
  | .type tx => if tx ≠ "" then [.sendType tx] else []
  | .press k => if k ≠ "" then [.sendKey k] else []

/-- `stopReplay` (`part_003` lines 100-110). -/
def stopReplay (st : ReplayState) : ReplayState :=
  { st with isReplaying := false, currentReplayStep := 0 }

/-- `stepReplay` (`part_003` lines 112-154): one manual advance. The
`catch` branch (which would stop the replay) is unreachable for the
modelled actions, see `executeAction`. -/
def stepReplay (env : ReplayEnv) (st : ReplayState) :
    ReplayState × List ReplayEffect :=
  if !st.isReplaying then (st, [.alertMsg "Please start replay first"])
  else
    match st.replaySteps.get? st.currentReplayStep with
    | none => (stopReplay st, [])
    | some step =>
      let effs := executeAction env step
      let st' := { st with currentReplayStep := st.currentReplayStep + 1 }
      if st.currentReplayStep + 1 ≥ st.replaySteps.length then
        (stopReplay st', effs)
      else (st', effs)

/-- Outcomes the environment supplies to one call of
`sendMessageToContentScript`: each of the two injection attempts and the
two `chrome.tabs.sendMessage` attempts can succeed or throw. -/
structure MsgEnv (α : Type) where
  inject1 : Except Unit Unit
  send1 : Except Unit α
  inject2 : Except Unit Unit
  send2 : Except Unit α

/-- Externally visible actions of the messenger. -/
inductive MsgEffect where
  | inject
  | wait (ms : Nat)
  | send
deriving DecidableEq, Repr

/-- `sendMessageToContentScript` (`part_003` lines 382-409): ensure the
executor is injected and send; on any failure re-inject, wait a fixed
1000 ms, resend once; a second failure returns `null`. Returns the
response (or `null`) plus the trace of attempted actions. -/
def sendMessageToContentScript {α : Type} (env : MsgEnv α) :
    Option α × List MsgEffect :=
  let firstTry : Except Unit α × List MsgEffect :=
    match env.inject1 with
    | .error e => (.error e, [.inject])
    | .ok _ =>
      match env.send1 with
      | .ok r => (.ok r, [.inject, .send])
      | .error e => (.error e, [.inject, .send])
  match firstTry with
  | (.ok r, effs) => (some r, effs)
  | (.error _, effs) =>
    match env.inject2 with
    | .error _ => (none, effs ++ [.inject])
    | .ok _ =>
      match env.send2 with
      | .ok r => (some r, effs ++ [.inject, .wait 1000, .send])
      | .error _ => (none, effs ++ [.inject, .wait 1000, .send])

/-- A page-side element as the replay-type executor sees it. -/
structure InputEl where
  tag : String
  contentEditable : Bool
  value : String
  textContent : String
deriving DecidableEq, Repr

/-- The editability test repeated at `part_000` lines 733 and 753:
`INPUT`, `TEXTAREA`, or `contentEditable === 'true'`. -/
def isEditableEl (el : InputEl) : Bool :=
  el.tag = "INPUT" || el.tag = "TEXTAREA" || el.contentEditable

/-- The page as `executeReplayType` queries it: the focused element, the
result of `document.querySelector` for each fallback selector, and
whether the synchronous setup code throws (the condition the `catch` of
`part_000` lines 771-774 absorbs). -/
structure PageEnv where
  activeElement : Option InputEl
  selectorHit : String → Option InputEl
  setupFails : Bool

/-- The fixed fallback selector list (`part_000` lines 734-740). -/
def inputSelectors : List String :=
  ["textarea[placeholder*=\"Message\"]", "textarea[placeholder*=\"Send\"]",
   "input[type=\"text\"]", "textarea", "div[contenteditable=\"true\"]"]

/-- The fallback loop (`part_000` lines 742-748): first selector hit. -/
def firstSelectorHit (env : PageEnv) : Option InputEl :=
  inputSelectors.findSome? env.selectorHit

/-- Lines 731-749: start from `document.activeElement`; when it is
missing or not editable, try the fallback selectors, keeping the stale
active element if none hits. -/
def chooseInputElement (env : PageEnv) : Option InputEl :=
  match env.activeElement with
  | some el =>
    if isEditableEl el then some el
    else
      match firstSelectorHit env with
      | some el2 => some el2
      | none => some el
  | none => firstSelectorHit env

/-- Clearing existing content (`part_000` lines 754-759). -/
def clearContent (el : InputEl) : InputEl :=
  if el.tag = "INPUT" || el.tag = "TEXTAREA" then { el with value := "" }
  else { el with textContent := "" }

/-- Appending one character (`part_000` lines 790-798). -/
def appendChar (el : InputEl) (c : Char) : InputEl :=
  if el.tag = "INPUT" || el.tag = "TEXTAREA" then
    { el with value := el.value ++ c.toString }
  else { el with textContent := el.textContent ++ c.toString }

/-- The element content the typing loop is writing into. -/
def elContent (el : InputEl) : String :=
  if el.tag = "INPUT" || el.tag = "TEXTAREA" then el.value
  else el.textContent

/-- `typeCharacterByCharacter` (`part_000` lines 779-815): append
`text[index]`, reschedule until `index >= text.length`, then call the
continuation with `true`. The per-character delays and `input` event
dispatches do not change the final content and are not modelled. -/
def typeCharacterByCharacter (el : InputEl) (text : List Char)
    (index : Nat) : InputEl × Bool :=
  if index ≥ text.length then (el, true)
  else
    typeCharacterByCharacter (appendChar el (text.getD index ' ')) text
      (index + 1)
termination_by text.length - index
decreasing_by omega

/-- `executeReplayType` (`part_000` lines 726-776): resolve the target,
clear it, type character by character, resolve `true`; resolve `false`
when no editable target exists or the setup throws. Returns the settled
boolean and the final target element. -/
def executeReplayType (env : PageEnv) (text : String) :
    Bool × Option InputEl :=
  if env.setupFails then (false, none)
  else
    match chooseInputElement env with
    | some el =>
      if isEditableEl el then
        let r := typeCharacterByCharacter (clearContent el) text.toList 0
        (r.2, some r.1)
      else (false, none)
    | none => (false, none)

/-- The emission guard of the `role` push, as the spec states it: a role
attribute is present (truthy) and a name is derivable from the `name`
attribute, `aria-label`, or trimmed text content. -/
def roleGuard (e : Element) : Bool :=
  (attrTruthy e "role").isSome &&
  jsOrStr (e.attrs "name")
    (jsOrStr (e.attrs "aria-label") (trimStr e.textContent)) ≠ ""

/-- Guard of the `data-testid` push: the attribute is present (truthy). -/
def testidGuard (e : Element) : Bool := (attrTruthy e "data-testid").isSome

/-- Guard of the `id` push: truthy id that is not dynamic. -/
def idGuard (e : Element) : Bool := e.id ≠ "" && !isDynamicId e.id

/-- Guard of the `href` push: an anchor with a truthy `href` whose URL
path is neither empty nor `/`. -/
def hrefGuard (e : Element) : Bool :=
  e.tagName = "A" &&
  (match e.href with
   | some h => h ≠ "" && (urlPathname h ≠ "" && urlPathname h ≠ "/")
   | none => false)

/-- Guard of the `title` push: truthy `title` property. -/
def titleGuard (e : Element) : Bool := e.title ≠ ""

/-- Guard of the `text` push: non-empty trimmed text content shorter
than 100 characters. -/
def textGuard (e : Element) : Bool :=
  trimStr e.textContent ≠ "" && (trimStr e.textContent).length < 100

/-- Guard of the `css` push: the generated selector is truthy. -/
def cssGuard (e : Element) : Bool := generateCSSSelector e ≠ ""

/-- Guard of the `xpath` push: the generated path is truthy. -/
def xpathGuard (e : Element) : Bool := generateSimpleXPath e ≠ ""

/-- The fixed priority order of locator kinds, highest trust first. -/
def masterKinds : List LocKind :=
  [.role, .testid, .id, .href, .title, .text, .webSearch, .composerPlus,
   .css, .xpath]

def eraseId (e : Element) : Element := { e with id := "" }

def hexIdElem : Element := { exampleIdElem with id := "abcdef01" }

def reactIdElem : Element :=
  { exampleIdElem with id := "react-select-2-input" }

/-- A live document in which the selector `[data-testid="go"]` matches
two elements. -/
def twoMatchDoc : Doc where
  queryAll := fun s =>
    if s = "[data-testid=\"go\"]" then .ok [⟨"first", none⟩, ⟨"second", none⟩]
    else .ok []
  evaluateXPath := fun _ => .ok none
  webSearchButton := none
  composerPlusButton := none

/-- A live document with one `[data-testid="go"]` match, in which the
selector `#bad` raises (a malformed-selector exception). -/
def sampleDoc : Doc where
  queryAll := fun s =>
    if s = "#bad" then .error ()
    else if s = "[data-testid=\"go\"]" then .ok [⟨"Go", none⟩]
    else .ok []
  evaluateXPath := fun _ => .ok none
  webSearchButton := none
  composerPlusButton := none

/-- `tryResolveOne` neither returns from the loop nor leaves an uncaught
exception for this locator: it is not the first success. -/
def locatorFails (doc : Doc) (l : Locator) : Prop :=
  ∀ r, tryResolveOne doc l ≠ .ok (some r)

/-- A replay environment whose locator-resolution round-trip always
reports no match. -/
def noMatchEnv : ReplayEnv := ⟨fun _ => none⟩

/-- A two-step trace: a click whose locators will not resolve, then a
key press. -/
def clickPressTrace : List Step :=
  [⟨0, .click [Locator.testid "x"]⟩, ⟨1, .press "Enter"⟩]

/-- The engine mid-replay at the click step of `clickPressTrace`. -/
def replayingState : ReplayState :=
  { isReplaying := true, currentReplayStep := 0,
    replaySteps := clickPressTrace }

/-- Effect trace of the first delivery attempt: the injection, and the
send when the injection did not throw. -/
def firstAttemptEffects {α : Type} (env : MsgEnv α) : List MsgEffect :=
  match env.inject1 with
  | .error _ => [.inject]
  | .ok _ => [.inject, .send]

/-- Messenger environment: first send throws, the retry succeeds. -/
def retryEnv : MsgEnv Nat := ⟨.ok (), .error (), .ok (), .ok 7⟩

/-- The validated typing target: the element `executeReplayType` ends up
typing into, `none` exactly when it resolves `false`. -/
def typedTarget (env : PageEnv) : Option InputEl :=
  if env.setupFails then none
  else
    match chooseInputElement env with
    | some el => if isEditableEl el then some el else none
    | none => none

/-- A page whose focused element is a textarea with stale content. -/
def typeEnv : PageEnv :=
  { activeElement := some ⟨"TEXTAREA", false, "old", ""⟩,
    selectorHit := fun _ => none, setupFails := false }

/-- Invariant carried along a recording session that started at clock
`now0` on `url`: the start time is fixed, the first step is the initial
`navigate` at `t = 0`, timestamps are non-decreasing, and every timestamp
is at most `bound - now0` (the last event time seen so far, relative to
the start). -/
def CaptureInv (now0 : Nat) (url : String) (bound : Nat)
    (st : CaptureState) : Prop :=
  st.startTime = now0 ∧
  st.steps.head? = some ⟨0, .navigate url⟩ ∧
  List.Chain' (fun a b : Step => a.t ≤ b.t) st.steps ∧
  ∀ s ∈ st.steps, s.t ≤ bound - now0

/-- The content script's `recorder` object as initialized at injection
time (`part_000` lines 13-20), with the module-level `lastUrl` empty. -/
def initialCaptureState : CaptureState :=
  { isRecording := false, startTime := 0, steps := [], typingTimeout := none,
    timerLive := false, lastTypedText := "", lastUrl := none,
    lastRecordedEvent := none, globalLastUrl := "" }

/-- A recording state with a pending typing debounce for `"hello"`. -/
def pendingState : CaptureState :=
  { isRecording := true, startTime := 100,
    steps := [⟨0, .navigate "https://a.example/"⟩],
    typingTimeout := some "hello", timerLive := true, lastTypedText := "",
    lastUrl := some "https://a.example/",
    lastRecordedEvent := some "navigate",
    globalLastUrl := "https://a.example/" }

/-! ## Theorems -/

theorem length_pos_iff_ne_empty (s : String) : 0 < s.length ↔ s ≠ "" := by
  cases s with
  | mk d => cases d <;> simp [String.length, String.ext_iff]

theorem map_kind_roleLocators (e : Element) :
    (roleLocators e).map Locator.kind =
      if roleGuard e then [LocKind.role] else [] := by
  unfold roleLocators roleGuard
  cases attrTruthy e "role" with
  | none => simp
  | some r =>
    by_cases hn : jsOrStr (e.attrs "name")
        (jsOrStr (e.attrs "aria-label") (trimStr e.textContent)) = "" <;>
      simp [hn, Locator.kind]

theorem map_kind_testidLocators (e : Element) :
    (testidLocators e).map Locator.kind =
      if testidGuard e then [LocKind.testid] else [] := by
  unfold testidLocators testidGuard
  cases attrTruthy e "data-testid" <;> simp [Locator.kind]

theorem map_kind_idLocators (e : Element) :
    (idLocators e).map Locator.kind =
      if idGuard e then [LocKind.id] else [] := by
  unfold idLocators idGuard
  split <;> simp_all [Locator.kind]

theorem map_kind_hrefLocators (e : Element) :
    (hrefLocators e).map Locator.kind =
      if hrefGuard e then [LocKind.href] else [] := by
  unfold hrefLocators hrefGuard
  by_cases ht : e.tagName = "A" <;> simp [ht]
  cases e.href with
  | none => simp
  | some h =>
    by_cases hh : h = "" <;> simp [hh]
    split <;> simp_all [Locator.kind]

theorem map_kind_titleLocators (e : Element) :
    (titleLocators e).map Locator.kind =
      if titleGuard e then [LocKind.title] else [] := by
  unfold titleLocators titleGuard
  split <;> simp_all [Locator.kind]

theorem map_kind_textLocators (e : Element) :
    (textLocators e).map Locator.kind =
      if textGuard e then [LocKind.text] else [] := by
  unfold textLocators textGuard
  by_cases h0 : e.textContent = ""
  · simp [h0, trimStr]
  · by_cases h1 : trimStr e.textContent = "" <;> simp [h0, h1]
    have hlen : 0 < (trimStr e.textContent).length :=
      (length_pos_iff_ne_empty _).mpr h1
    split <;> simp_all [Locator.kind]

theorem map_kind_webSearchLocators (e : Element) :
    (webSearchLocators e).map Locator.kind =
      if isWebSearchButton e then [LocKind.webSearch] else [] := by
  unfold webSearchLocators
  split <;> simp [Locator.kind]

theorem map_kind_composerPlusLocators (e : Element) :
    (composerPlusLocators e).map Locator.kind =
      if isComposerPlusButton e then [LocKind.composerPlus] else [] := by
  unfold composerPlusLocators
  split <;> simp [Locator.kind]

theorem map_kind_cssLocators (e : Element) :
    (cssLocators e).map Locator.kind =
      if cssGuard e then [LocKind.css] else [] := by
  unfold cssLocators cssGuard
  split <;> simp_all [Locator.kind]

theorem map_kind_xpathLocators (e : Element) :
    (xpathLocators e).map Locator.kind =
      if xpathGuard e then [LocKind.xpath] else [] := by
  unfold xpathLocators xpathGuard
  split <;> simp_all [Locator.kind]

theorem mem_ite_singleton {α : Type} {c : Prop} [Decidable c] {a b : α} :
    (a ∈ if c then [b] else []) ↔ (c ∧ a = b) := by
  split <;> simp_all

/-- The locator kinds `generateLocators` emits, in emission order, as a
filter of the guards over the fixed priority list. -/
theorem kinds_of_generateLocators (e : Element) (k : LocKind) :
    k ∈ (generateLocators e).map Locator.kind ↔
      ((roleGuard e = true ∧ k = .role) ∨
       (testidGuard e = true ∧ k = .testid) ∨
       (idGuard e = true ∧ k = .id) ∨
       (hrefGuard e = true ∧ k = .href) ∨
       (titleGuard e = true ∧ k = .title) ∨
       (textGuard e = true ∧ k = .text) ∨
       (isWebSearchButton e = true ∧ k = .webSearch) ∨
       (isComposerPlusButton e = true ∧ k = .composerPlus) ∨
       (cssGuard e = true ∧ k = .css) ∨
       (xpathGuard e = true ∧ k = .xpath)) := by
  unfold generateLocators
  simp only [List.map_append, List.mem_append,
    map_kind_roleLocators, map_kind_testidLocators, map_kind_idLocators,
    map_kind_hrefLocators, map_kind_titleLocators, map_kind_textLocators,
    map_kind_webSearchLocators, map_kind_composerPlusLocators,
    map_kind_cssLocators, map_kind_xpathLocators, mem_ite_singleton]
  simp only [or_assoc]

/-- A block whose emitted kind is not `id` cannot contain an `id`
locator. -/
theorem id_not_mem_block {v : String} {L : List Locator} {c : Prop}
    [Decidable c] {k0 : LocKind}
    (hmap : L.map Locator.kind = if c then [k0] else [])
    (hk : k0 ≠ LocKind.id) (h : Locator.id v ∈ L) : False := by
  have h2 := List.mem_map_of_mem Locator.kind h
  rw [hmap, mem_ite_singleton] at h2
  exact hk h2.2.symm

/-- Every member of `generateLocators` has the kind of the block that
emitted it, so `Locator.id v` can only come from the `id` push. -/
theorem id_mem_generateLocators (e : Element) (v : String) :
    Locator.id v ∈ generateLocators e ↔
      (e.id ≠ "" ∧ isDynamicId e.id = false ∧ v = e.id) := by
  constructor
  · intro hmem
    unfold generateLocators at hmem
    simp only [List.mem_append] at hmem
    rcases hmem with ((((((((h | h) | h) | h) | h) | h) | h) | h) | h) | h
    · exact (id_not_mem_block (map_kind_roleLocators e) (by decide) h).elim
    · exact (id_not_mem_block (map_kind_testidLocators e) (by decide) h).elim
    · unfold idLocators at h
      rcases Decidable.em ((e.id ≠ "" && !isDynamicId e.id) = true) with
        hg | hg
      · rw [if_pos hg] at h
        simp only [Bool.and_eq_true, Bool.not_eq_true',
          decide_eq_true_eq] at hg
        exact ⟨hg.1, hg.2, by simpa using h⟩
      · rw [if_neg hg] at h
        exact absurd h (List.not_mem_nil _)
    · exact (id_not_mem_block (map_kind_hrefLocators e) (by decide) h).elim
    · exact (id_not_mem_block (map_kind_titleLocators e) (by decide) h).elim
    · exact (id_not_mem_block (map_kind_textLocators e) (by decide) h).elim
    · exact (id_not_mem_block (map_kind_webSearchLocators e) (by decide)
        h).elim
    · exact (id_not_mem_block (map_kind_composerPlusLocators e) (by decide)
        h).elim
    · exact (id_not_mem_block (map_kind_cssLocators e) (by decide) h).elim
    · exact (id_not_mem_block (map_kind_xpathLocators e) (by decide) h).elim
  · rintro ⟨h1, h2, rfl⟩
    unfold generateLocators
    have hmem : Locator.id e.id ∈ idLocators e := by
      unfold idLocators
      rw [if_pos (by simp [h1, h2])]
      exact List.mem_singleton.mpr rfl
    simp only [List.mem_append]
    tauto

theorem ite_singleton_sublist {α : Type} {c : Prop} [Decidable c] {k : α} :
    List.Sublist (if c then [k] else []) [k] := by
  split
  · exact List.Sublist.refl _
  · exact List.nil_sublist _

/-- The emitted kind sequence is a subsequence of the master priority
list. -/
theorem kinds_sublist (e : Element) :
    List.Sublist ((generateLocators e).map Locator.kind) masterKinds := by
  unfold generateLocators masterKinds
  simp only [List.map_append, map_kind_roleLocators, map_kind_testidLocators,
    map_kind_idLocators, map_kind_hrefLocators, map_kind_titleLocators,
    map_kind_textLocators, map_kind_webSearchLocators,
    map_kind_composerPlusLocators, map_kind_cssLocators,
    map_kind_xpathLocators]
  exact (((((((((ite_singleton_sublist.append
    ite_singleton_sublist).append ite_singleton_sublist).append
    ite_singleton_sublist).append ite_singleton_sublist).append
    ite_singleton_sublist).append ite_singleton_sublist).append
    ite_singleton_sublist).append ite_singleton_sublist).append
    ite_singleton_sublist)

/-- C5: for every element the generator emits its locators in the fixed
priority order role, data-testid, id, href, title, text, web-search,
composer-plus, css, xpath (the emitted kind sequence has strictly
increasing rank), and each kind is present exactly when its guard holds:
role with a derivable name, truthy data-testid, truthy non-dynamic id,
anchor href with a non-trivial path, truthy title, non-empty trimmed text
shorter than 100 characters, the two domain-specific predicates, and
truthy generated css/xpath selectors. -/
theorem generate_locators_priority_order (e : Element) :
    List.Pairwise (fun a b : LocKind => a.rank < b.rank)
      ((generateLocators e).map Locator.kind) ∧
    (LocKind.role ∈ (generateLocators e).map Locator.kind ↔
      roleGuard e = true) ∧
    (LocKind.testid ∈ (generateLocators e).map Locator.kind ↔
      testidGuard e = true) ∧
    (LocKind.id ∈ (generateLocators e).map Locator.kind ↔
      idGuard e = true) ∧
    (LocKind.href ∈ (generateLocators e).map Locator.kind ↔
      hrefGuard e = true) ∧
    (LocKind.title ∈ (generateLocators e).map Locator.kind ↔
      titleGuard e = true) ∧
    (LocKind.text ∈ (generateLocators e).map Locator.kind ↔
      textGuard e = true) ∧
    (LocKind.webSearch ∈ (generateLocators e).map Locator.kind ↔
      isWebSearchButton e = true) ∧
    (LocKind.composerPlus ∈ (generateLocators e).map Locator.kind ↔
      isComposerPlusButton e = true) ∧
    (LocKind.css ∈ (generateLocators e).map Locator.kind ↔
      cssGuard e = true) ∧
    (LocKind.xpath ∈ (generateLocators e).map Locator.kind ↔
      xpathGuard e = true) := by
  refine ⟨List.Pairwise.sublist (kinds_sublist e) (by decide),
    ?_, ?_, ?_, ?_, ?_, ?_, ?_, ?_, ?_, ?_⟩ <;>
    rw [kinds_of_generateLocators] <;> simp

/-- C3 counterexample: the spec's own example id `a1b2c3d4e5f6g7h8` is
not matched by any dynamic pattern (it contains `g`/`h`, so it is not
hex, and it is 16 < 20 characters long), so for a plain div carrying it
the generator does emit an `id` locator and builds the CSS selector from
that id. -/
theorem dynamic_id_example_counterexample :
    isDynamicId "a1b2c3d4e5f6g7h8" = false ∧
    Locator.id "a1b2c3d4e5f6g7h8" ∈ generateLocators exampleIdElem ∧
    generateCSSSelector exampleIdElem = "#a1b2c3d4e5f6g7h8" := by decide

/-- C3 (amended): for every element whose id the classifier actually
marks dynamic — which includes every 20+-character alphanumeric token and
every `react-select`/`mui-`/`chakra-`/`rc-` prefixed id, but not the
spec's example `a1b2c3d4e5f6g7h8` — the generator never emits an `id`
locator and the generated CSS selector is computed as if the element had
no id at all. -/
theorem dynamic_id_excluded :
    (∀ id : String,
      ((20 ≤ id.length ∧ id.toList.all isAsciiAlnum = true) ∨
       "react-select".toList.isPrefixOf id.toList = true ∨
       "mui-".toList.isPrefixOf id.toList = true ∨
       "chakra-".toList.isPrefixOf id.toList = true ∨
       "rc-".toList.isPrefixOf id.toList = true) →
      isDynamicId id = true) ∧
    (∀ e : Element, isDynamicId e.id = true →
      (∀ v, Locator.id v ∉ generateLocators e) ∧
      generateCSSSelector e = generateCSSSelector (eraseId e)) := by
  constructor
  · intro id h
    unfold isDynamicId
    simp only [Bool.or_eq_true, Bool.and_eq_true, decide_eq_true_eq,
      ge_iff_le]
    tauto
  · intro e hdyn
    constructor
    · intro v hv
      rw [id_mem_generateLocators] at hv
      rw [hv.2.1] at hdyn
      exact absurd hdyn (by simp)
    · unfold generateCSSSelector
      have hA : attrTruthy (eraseId e) "data-testid" =
          attrTruthy e "data-testid" := rfl
      rw [hA]
      cases attrTruthy e "data-testid" with
      | some v => rfl
      | none =>
        simp only [hdyn, eraseId, Bool.not_true, Bool.and_false, if_neg,
          Bool.false_eq_true, not_false_eq_true]
        rfl

/-- C9: every id of 8 or more lowercase-hex characters is classified
dynamic (so it is never emitted as an `id` locator), while the general
alphanumeric threshold is 20: an 8-character hex token and a 20-character
`g`-run are dynamic, a 7-character hex token and a 19-character `g`-run
are not. -/
theorem hex_id_classified_dynamic :
    (∀ id : String, 8 ≤ id.length → id.toList.all isLowerHexDigit = true →
      isDynamicId id = true ∧
      ∀ e : Element, e.id = id → ∀ v, Locator.id v ∉ generateLocators e) ∧
    isDynamicId "abcdef07" = true ∧ isDynamicId "abcdef0" = false ∧
    isDynamicId "gggggggggggggggggggg" = true ∧
    isDynamicId "ggggggggggggggggggg" = false := by
  refine ⟨?_, by decide, by decide, by decide, by decide⟩
  intro id hlen hhex
  have hdyn : isDynamicId id = true := by
    unfold isDynamicId
    simp only [Bool.or_eq_true, Bool.and_eq_true, decide_eq_true_eq,
      ge_iff_le]
    tauto
  refine ⟨hdyn, ?_⟩
  intro e he v hv
  rw [id_mem_generateLocators] at hv
  rw [he, hdyn] at hv
  exact absurd hv.2.1 (by simp)

/-- C9 witness: the theorem applied to the concrete id `abcdef01` and a
concrete element carrying it. -/
theorem hex_id_classified_dynamic_witness :
    isDynamicId "abcdef01" = true ∧
    Locator.id "abcdef01" ∉ generateLocators hexIdElem :=
  ⟨(hex_id_classified_dynamic.1 "abcdef01" (by decide) (by decide)).1,
   (hex_id_classified_dynamic.1 "abcdef01" (by decide) (by decide)).2
     hexIdElem rfl "abcdef01"⟩

/-- C3 witness: the amended theorem applied to a `react-select` prefixed
id and a concrete element carrying it. -/
theorem dynamic_id_excluded_witness :
    isDynamicId "react-select-2-input" = true ∧
    Locator.id "react-select-2-input" ∉ generateLocators reactIdElem ∧
    generateCSSSelector reactIdElem =
      generateCSSSelector (eraseId reactIdElem) :=
  ⟨dynamic_id_excluded.1 "react-select-2-input" (Or.inr (Or.inl (by decide))),
   (dynamic_id_excluded.2 reactIdElem (by decide)).1 "react-select-2-input",
   (dynamic_id_excluded.2 reactIdElem (by decide)).2⟩

/-- C2 counterexample: in a document where `[data-testid="go"]` matches
two elements, the resolver still accepts the data-testid locator and
returns the selector; it does not require the match to be unique. -/
theorem testid_unique_counterexample :
    twoMatchDoc.queryAll (testidSelector "go") =
      .ok [⟨"first", none⟩, ⟨"second", none⟩] ∧
    ((twoMatchDoc.queryAll (testidSelector "go")).toOption.getD []).length
      = 2 ∧
    resolveLocator twoMatchDoc [Locator.testid "go"] =
      some (.sel (testidSelector "go")) :=
  ⟨rfl, rfl, rfl⟩

/-- C2 (amended): the resolver resolves a data-testid locator by building
the attribute-equality selector on the stored value and accepts it iff
the selector matches at least one element of the live document (the
first match; uniqueness is not checked). -/
theorem testid_accepts_at_least_one (doc : Doc) (v : String)
    (found : List ElemRef) (hv : v ≠ "")
    (hq : doc.queryAll (testidSelector v) = .ok found)
    (rest : List Locator) :
    (found ≠ [] →
      resolveLocator doc (Locator.testid v :: rest) =
        some (.sel (testidSelector v))) ∧
    (found = [] →
      resolveLocator doc (Locator.testid v :: rest) =
        resolveLocator doc rest) := by
  constructor <;> intro hm
  · obtain ⟨a, t, rfl⟩ : ∃ a t, found = a :: t := by
      cases found with
      | nil => exact absurd rfl hm
      | cons a t => exact ⟨a, t, rfl⟩
    have ht : tryResolveOne doc (Locator.testid v) =
        .ok (some (.sel (testidSelector v))) := by
      simp only [tryResolveOne, Doc.querySelector]
      rw [if_neg hv, hq]
      rfl
    simp [resolveLocator, ht]
  · subst hm
    have ht : tryResolveOne doc (Locator.testid v) = .ok none := by
      simp only [tryResolveOne, Doc.querySelector]
      rw [if_neg hv, hq]
      rfl
    simp [resolveLocator, ht]

/-- C2 witness: the amended theorem applied to the two-match document. -/
theorem testid_accepts_at_least_one_witness :
    resolveLocator twoMatchDoc [Locator.testid "go"] =
      some (.sel (testidSelector "go")) :=
  (testid_accepts_at_least_one twoMatchDoc "go"
    [⟨"first", none⟩, ⟨"second", none⟩] (by decide) rfl []).1 (by decide)

theorem resolveLocator_cons_of_fails (doc : Doc) (l : Locator)
    (rest : List Locator) (h : locatorFails doc l) :
    resolveLocator doc (l :: rest) = resolveLocator doc rest := by
  cases ht : tryResolveOne doc l with
  | error e => simp [resolveLocator, ht]
  | ok o =>
    cases o with
    | some r => exact absurd ht (h r)
    | none => simp [resolveLocator, ht]

/-- C4: the resolver tries the candidates strictly in list order and
returns the result of the first locator that resolves; a locator whose
attempt raises is absorbed and treated as failing; when no locator
resolves, the resolver returns the definitive no-match signal `null`
rather than raising. -/
theorem resolver_order_first_success (doc : Doc) :
    (∀ pre (l : Locator) post r, (∀ x ∈ pre, locatorFails doc x) →
      tryResolveOne doc l = .ok (some r) →
      resolveLocator doc (pre ++ l :: post) = some r) ∧
    (∀ locs, (∀ x ∈ locs, locatorFails doc x) →
      resolveLocator doc locs = none) ∧
    (∀ (l : Locator) rest, tryResolveOne doc l = .error () →
      resolveLocator doc (l :: rest) = resolveLocator doc rest) := by
  refine ⟨?_, ?_, ?_⟩
  · intro pre l post r hpre hl
    induction pre with
    | nil => simp [resolveLocator, hl]
    | cons a t ih =>
      rw [List.cons_append,
        resolveLocator_cons_of_fails doc a _ (hpre a (by simp))]
      exact ih (fun x hx => hpre x (by simp [hx]))
  · intro locs hall
    induction locs with
    | nil => rfl
    | cons a t ih =>
      rw [resolveLocator_cons_of_fails doc a t (hall a (by simp))]
      exact ih (fun x hx => hall x (by simp [hx]))
  · intro l rest he
    simp [resolveLocator, he]

/-- C4 witness: in `sampleDoc` a failing `title` locator is skipped and
the `data-testid` locator's selector is returned; a raising `id` locator
(`#bad`) is absorbed and an all-failing list yields `null`. -/
theorem resolver_order_first_success_witness :
    resolveLocator sampleDoc
      [Locator.title "missing", Locator.testid "go", Locator.css "div"] =
      some (.sel (testidSelector "go")) ∧
    resolveLocator sampleDoc [Locator.id "bad", Locator.title "missing"] =
      none := by
  constructor
  · refine (resolver_order_first_success sampleDoc).1
      [Locator.title "missing"] (Locator.testid "go") [Locator.css "div"]
      (.sel (testidSelector "go")) ?_ rfl
    intro x hx r hr
    simp only [List.mem_singleton] at hx
    subst hx
    rw [show tryResolveOne sampleDoc (Locator.title "missing") =
      Except.ok none from rfl] at hr
    simp at hr
  · refine (resolver_order_first_success sampleDoc).2.1 _ ?_
    intro x hx r hr
    simp only [List.mem_cons, List.mem_singleton, List.not_mem_nil,
      or_false] at hx
    rcases hx with rfl | rfl
    · rw [show tryResolveOne sampleDoc (Locator.id "bad") =
        Except.error () from rfl] at hr
      simp at hr
    · rw [show tryResolveOne sampleDoc (Locator.title "missing") =
        Except.ok none from rfl] at hr
      simp at hr

/-- C1 counterexample: with the resolver reporting no match for the
click step, one advance leaves the engine replaying (no transition to
idle) and moves the cursor past the failed step; the step only produces
an error log. -/
theorem replay_click_no_match_counterexample :
    (stepReplay noMatchEnv replayingState).1.isReplaying = true ∧
    (stepReplay noMatchEnv replayingState).1.currentReplayStep = 1 ∧
    (stepReplay noMatchEnv replayingState).2 =
      [.resolveRequest [Locator.testid "x"], .logError] :=
  ⟨rfl, rfl, rfl⟩

/-- C1 (amended): when the Locator Resolver returns the no-match signal
for a click step, the replay engine logs the failure and dispatches no
click, but does not abort: the cursor advances past the failed step and
the engine stays replaying, unless the failed step was the last one, in
which case it completes and tears down to idle exactly as after a
successful last step. -/
theorem replay_click_no_match_continues (env : ReplayEnv)
    (st : ReplayState) (locs : List Locator) (ts : Nat)
    (hrep : st.isReplaying = true)
    (hstep : st.replaySteps.get? st.currentReplayStep =
      some ⟨ts, .click locs⟩)
    (hres : env.resolve locs = none) :
    (stepReplay env st).2 = [.resolveRequest locs, .logError] ∧
    (stepReplay env st).1.currentReplayStep =
      (if st.currentReplayStep + 1 ≥ st.replaySteps.length then 0
       else st.currentReplayStep + 1) ∧
    (stepReplay env st).1.isReplaying =
      (if st.currentReplayStep + 1 ≥ st.replaySteps.length then false
       else true) := by
  unfold stepReplay
  rw [hrep, hstep]
  simp only [executeAction, hres, Bool.not_true, Bool.false_eq_true,
    if_false]
  split <;> simp_all [stopReplay]

/-- C1 witness: the amended theorem applied to the concrete two-step
trace and the always-no-match environment. -/
theorem replay_click_no_match_continues_witness :
    (stepReplay noMatchEnv replayingState).2 =
      [.resolveRequest [Locator.testid "x"], .logError] ∧
    (stepReplay noMatchEnv replayingState).1.isReplaying = true := by
  have h := replay_click_no_match_continues noMatchEnv replayingState
    [Locator.testid "x"] 0 rfl rfl rfl
  refine ⟨h.1, ?_⟩
  rw [h.2.2]
  decide

/-- C8: when the first delivery attempt fails (the injection or the send
throws), the messenger performs exactly one retry — re-inject, wait a
fixed 1000 ms, resend once — returning that retry's response; if the
retry also fails it returns `null`; in every case at most two sends and
at most one wait are attempted, and no exception escapes (the result is a
plain `Option`). -/
theorem messenger_single_retry {α : Type} (env : MsgEnv α)
    (hfail : env.inject1 = .error () ∨ env.send1 = .error ()) :
    (∀ r, env.inject2 = .ok () → env.send2 = .ok r →
      sendMessageToContentScript env =
        (some r, firstAttemptEffects env ++ [.inject, .wait 1000, .send])) ∧
    ((env.inject2 = .error () ∨ env.send2 = .error ()) →
      (sendMessageToContentScript env).1 = none) ∧
    (sendMessageToContentScript env).2.countP
      (fun x => x == MsgEffect.send) ≤ 2 ∧
    (sendMessageToContentScript env).2.countP
      (fun x => x == MsgEffect.wait 1000) ≤ 1 := by
  obtain ⟨i1, s1, i2, s2⟩ := env
  cases i1 <;> cases s1 <;> cases i2 <;> cases s2 <;>
    simp_all [sendMessageToContentScript, firstAttemptEffects,
      List.countP_cons]

/-- C8 witness: the theorem applied to the environment whose first send
throws and whose retry succeeds with response `7`. -/
theorem messenger_single_retry_witness :
    sendMessageToContentScript retryEnv =
      (some 7, [.inject, .send, .inject, .wait 1000, .send]) ∧
    (sendMessageToContentScript retryEnv).2.countP
      (fun x => x == MsgEffect.send) ≤ 2 := by
  have h := messenger_single_retry retryEnv (Or.inr rfl)
  exact ⟨by simpa [firstAttemptEffects, retryEnv] using h.1 7 rfl rfl,
    h.2.2.1⟩

theorem typeCBC_true (el : InputEl) (text : List Char) (index : Nat) :
    (typeCharacterByCharacter el text index).2 = true := by
  generalize hf : text.length - index = fuel
  induction fuel generalizing el index with
  | zero =>
    rw [typeCharacterByCharacter]
    have : index ≥ text.length := by omega
    simp [this]
  | succ n ih =>
    rw [typeCharacterByCharacter]
    by_cases hc : index ≥ text.length
    · simp [hc]
    · simp only [hc, if_false]
      exact ih _ _ (by omega)

theorem elContent_appendChar (el : InputEl) (c : Char) :
    elContent (appendChar el c) = elContent el ++ c.toString := by
  unfold elContent appendChar
  split <;> simp_all

theorem elContent_clearContent (el : InputEl) :
    elContent (clearContent el) = "" := by
  unfold elContent clearContent
  split <;> simp_all

theorem string_mk_toList (s : String) : String.mk s.toList = s := rfl

theorem mk_append_mk (a b : List Char) :
    String.mk a ++ String.mk b = String.mk (a ++ b) := rfl

theorem typeCBC_content (el : InputEl) (text : List Char) (index : Nat) :
    elContent (typeCharacterByCharacter el text index).1 =
      elContent el ++ String.mk (text.drop index) := by
  generalize hf : text.length - index = fuel
  induction fuel generalizing el index with
  | zero =>
    rw [typeCharacterByCharacter]
    have hge : index ≥ text.length := by omega
    rw [if_pos hge, List.drop_eq_nil_of_le hge]
    cases el_eq : elContent el with
    | mk d => simp [String.append]
  | succ n ih =>
    rw [typeCharacterByCharacter]
    by_cases hc : index ≥ text.length
    · rw [if_pos hc, List.drop_eq_nil_of_le hc]
      cases el_eq : elContent el with
      | mk d => simp [String.append]
    · rw [if_neg hc]
      rw [ih _ _ (by omega), elContent_appendChar]
      have hlt : index < text.length := by omega
      rw [List.drop_eq_getElem_cons hlt]
      have hg : text.getD index ' ' = text[index] := by
        simp [List.getD, List.get?_eq_getElem?, hlt]
      rw [hg]
      cases elContent el with
      | mk d =>
        rw [show (text[index]).toString = String.mk [text[index]] from rfl,
          mk_append_mk, mk_append_mk, mk_append_mk, List.append_assoc]
        rfl

/-- C10: the replay-type executor always settles with a boolean (the
model is a total function into `Bool`, mirroring that every path calls
`resolve` and no rejection exists): it settles `true` exactly when an
editable target was found and the setup did not throw, in which case the
final content of the target is exactly the requested text (every
character inserted after the clear); otherwise it settles `false`. -/
theorem replay_type_settles (env : PageEnv) (text : String) :
    ((executeReplayType env text).1 = true ↔ typedTarget env ≠ none) ∧
    ((executeReplayType env text).1 = true →
      ∃ el, (executeReplayType env text).2 = some el ∧
        elContent el = text) := by
  unfold executeReplayType typedTarget
  by_cases hs : env.setupFails <;> simp [hs]
  · cases hch : chooseInputElement env with
    | none => simp
    | some el =>
      by_cases hed : isEditableEl el <;> simp [hed]
      · constructor
        · exact typeCBC_true _ _ _
        · intro _
          rw [typeCBC_content, elContent_clearContent]
          cases text with
          | mk d => simp [String.append, String.toList]

/-- C10 witness: typing `"hi"` into the focused textarea settles `true`
with final content `"hi"`. -/
theorem replay_type_settles_witness :
    (executeReplayType typeEnv "hi").1 = true ∧
    ∃ el, (executeReplayType typeEnv "hi").2 = some el ∧
      elContent el = "hi" := by
  have h := replay_type_settles typeEnv "hi"
  have h1 : (executeReplayType typeEnv "hi").1 = true :=
    h.1.mpr (by decide)
  exact ⟨h1, h.2 h1⟩

theorem addStep_typingTimeout (now : Nat) (act : StepAct)
    (st : CaptureState) :
    (addStep now act st).typingTimeout = st.typingTimeout := by
  unfold addStep; split <;> rfl

theorem addStep_timerLive (now : Nat) (act : StepAct) (st : CaptureState) :
    (addStep now act st).timerLive = st.timerLive := by
  unfold addStep; split <;> rfl

theorem addStep_isRecording (now : Nat) (act : StepAct)
    (st : CaptureState) :
    (addStep now act st).isRecording = st.isRecording := by
  unfold addStep; split <;> rfl

theorem addStep_startTime (now : Nat) (act : StepAct) (st : CaptureState) :
    (addStep now act st).startTime = st.startTime := by
  unfold addStep; split <;> rfl

theorem addStep_steps_of_rec (now : Nat) (act : StepAct)
    (st : CaptureState) (h : st.isRecording = true) :
    (addStep now act st).steps =
      st.steps ++ [⟨now - st.startTime, act⟩] := by
  unfold addStep; rw [h]; rfl

/-- C6: pressing Enter on the editable target while the typing debounce
is pending cancels the timer, emits the `type` step for the accumulated
text (exactly when it is non-empty and differs from the last emitted
text) immediately followed by the `press Enter` step, and a later
debounce firing is a no-op, so no duplicate `type` step can follow. -/
theorem enter_flush_order (st : CaptureState) (now : Nat) (txt : String)
    (hrec : st.isRecording = true) (hpend : st.typingTimeout = some txt)
    (_hlive : st.timerLive = true) :
    (captureKeyPress now "Enter" true txt st).typingTimeout = none ∧
    (captureKeyPress now "Enter" true txt st).timerLive = false ∧
    (txt ≠ "" → txt ≠ st.lastTypedText →
      (captureKeyPress now "Enter" true txt st).steps =
        st.steps ++ [⟨now - st.startTime, .type txt⟩,
                     ⟨now - st.startTime, .press "Enter"⟩]) ∧
    (txt = "" ∨ txt = st.lastTypedText →
      (captureKeyPress now "Enter" true txt st).steps =
        st.steps ++ [⟨now - st.startTime, .press "Enter"⟩]) ∧
    (∀ m, debounceFire m (captureKeyPress now "Enter" true txt st) =
      captureKeyPress now "Enter" true txt st) := by
  have hcont : specialKeys.contains "Enter" = true := rfl
  unfold captureKeyPress
  rw [hrec, hcont, hpend]
  simp only [if_true, Option.isSome_some, Bool.and_true, decide_True,
    ite_true]
  by_cases hg : (txt ≠ "" ∧ txt ≠ st.lastTypedText)
  · have hgb : (txt ≠ "" && txt ≠ st.lastTypedText) = true := by
      simp [hg.1, hg.2]
    rw [hgb]
    simp only [if_true, ite_true]
    refine ⟨?_, ?_, ?_, ?_, ?_⟩
    · rw [addStep_typingTimeout, addStep_typingTimeout]
    · rw [addStep_timerLive, addStep_timerLive]
    · intro _ _
      rw [addStep_steps_of_rec _ _ _ (by rw [addStep_isRecording]),
        addStep_steps_of_rec _ _ _ rfl, addStep_startTime]
      simp
    · intro habs
      rcases habs with h | h
      · exact absurd h hg.1
      · exact absurd h hg.2
    · intro m
      unfold debounceFire
      rw [addStep_timerLive, addStep_timerLive]
      rfl
  · have hgb : (txt ≠ "" && txt ≠ st.lastTypedText) = false := by
      rcases Decidable.em (txt = "") with h | h
      · simp [h]
      · rcases Decidable.em (txt = st.lastTypedText) with h2 | h2
        · simp [h2]
        · exact absurd ⟨h, h2⟩ hg
    rw [hgb]
    simp only [if_false, Bool.false_eq_true]
    refine ⟨?_, ?_, ?_, ?_, ?_⟩
    · rw [addStep_typingTimeout]
    · rw [addStep_timerLive]
    · intro h1 h2
      exact absurd ⟨h1, h2⟩ hg
    · intro _
      rw [addStep_steps_of_rec _ _ _ rfl]
    · intro m
      unfold debounceFire
      rw [addStep_timerLive]
      rfl

/-- C6 witness: with `"hello"` pending and Enter pressed 7 ms into the
recording, the type step immediately precedes the press step and the
timer handle is cleared. -/
theorem enter_flush_order_witness :
    (captureKeyPress 107 "Enter" true "hello" pendingState).steps =
      pendingState.steps ++ [⟨7, .type "hello"⟩, ⟨7, .press "Enter"⟩] ∧
    (captureKeyPress 107 "Enter" true "hello" pendingState).typingTimeout
      = none := by
  have h := enter_flush_order pendingState 107 "hello" rfl rfl rfl
  exact ⟨by simpa using h.2.2.1 (by decide) (by decide), h.1⟩

theorem captureInv_mono {now0 : Nat} {url : String} {b1 b2 : Nat}
    {st : CaptureState} (h : CaptureInv now0 url b1 st) (hb : b1 ≤ b2) :
    CaptureInv now0 url b2 st :=
  ⟨h.1, h.2.1, h.2.2.1, fun s hs =>
    le_trans (h.2.2.2 s hs) (Nat.sub_le_sub_right hb now0)⟩

theorem addStep_inv {now0 : Nat} {url : String} {b now : Nat}
    {st : CaptureState} (act : StepAct)
    (h : CaptureInv now0 url b st) (hb : b ≤ now) :
    CaptureInv now0 url now (addStep now act st) := by
  unfold addStep
  split
  · refine ⟨h.1, ?_, ?_, ?_⟩
    · exact Option.mem_def.mp
        (List.mem_head?_append_of_mem_head? (Option.mem_def.mpr h.2.1))
    · rw [List.chain'_append]
      refine ⟨h.2.2.1, List.chain'_singleton _, ?_⟩
      intro x hx y hy
      simp only [List.head?_cons, Option.mem_def, Option.some.injEq] at hy
      subst hy
      have hxmem : x ∈ st.steps := by
        obtain ⟨hne, rfl⟩ := List.mem_getLast?_eq_getLast hx
        exact List.getLast_mem hne
      have hxb := h.2.2.2 x hxmem
      show x.t ≤ now - st.startTime
      rw [h.1]
      exact le_trans hxb (Nat.sub_le_sub_right hb now0)
    · intro s hs
      rw [List.mem_append] at hs
      rcases hs with hs | hs
      · exact le_trans (h.2.2.2 s hs) (Nat.sub_le_sub_right hb now0)
      · simp only [List.mem_singleton] at hs
        subst hs
        rw [h.1]
  · exact captureInv_mono h hb

theorem captureStep_inv {now0 : Nat} {url : String} {b now : Nat}
    {st : CaptureState} (ev : CaptureEvent)
    (h : CaptureInv now0 url b st) (hb : b ≤ now) :
    CaptureInv now0 url now (captureStep now ev st) := by
  cases ev with
  | click e =>
    show CaptureInv now0 url now (captureClick now e st)
    unfold captureClick
    split
    · exact addStep_inv _ h hb
    · exact captureInv_mono h hb
  | input ed tx =>
    show CaptureInv now0 url now (captureType now ed tx st)
    unfold captureType
    split
    · split
      · exact captureInv_mono h hb
      · exact captureInv_mono h hb
    · exact captureInv_mono h hb
  | fire =>
    show CaptureInv now0 url now (debounceFire now st)
    unfold debounceFire
    split
    · cases st.typingTimeout with
      | some txt =>
        simp only
        split
        · exact addStep_inv _ (captureInv_mono h hb) (le_refl now)
        · exact captureInv_mono h hb
      | none => exact captureInv_mono h hb
    · exact captureInv_mono h hb
  | keydown k ed tx =>
    show CaptureInv now0 url now (captureKeyPress now k ed tx st)
    unfold captureKeyPress
    split
    · split
      · refine addStep_inv _ ?_ (le_refl now)
        split
        · split
          · split
            · exact addStep_inv _ (captureInv_mono h hb) (le_refl now)
            · exact captureInv_mono h hb
          · exact captureInv_mono h hb
        · exact captureInv_mono h hb
      · exact captureInv_mono h hb
    · exact captureInv_mono h hb
  | urlChange u =>
    show CaptureInv now0 url now (handleUrlChange now u st)
    unfold handleUrlChange
    split
    · exact captureInv_mono h hb
    · dsimp only
      split
      · exact captureInv_mono h hb
      · split
        · exact addStep_inv _ (captureInv_mono h hb) (le_refl now)
        · split
          · exact captureInv_mono h hb
          · exact captureInv_mono h hb

theorem runCapture_inv {now0 : Nat} {url : String}
    (events : List (Nat × CaptureEvent)) (st : CaptureState) (b : Nat)
    (h : CaptureInv now0 url b st)
    (hchain : List.Chain (fun a c => a ≤ c) b (events.map Prod.fst)) :
    ∃ b2, CaptureInv now0 url b2 (runCapture events st) := by
  induction events generalizing st b with
  | nil => exact ⟨b, h⟩
  | cons p rest ih =>
    obtain ⟨now, ev⟩ := p
    simp only [List.map_cons] at hchain
    cases hchain with
    | cons hle hch =>
      exact ih (captureStep now ev st) now (captureStep_inv ev h hle) hch

/-- C7: a recording session started at clock `now0` on `url`, followed by
any sequence of capture events at non-decreasing clock instants, yields a
step list whose first step is `navigate url` at `t = 0` and whose
timestamps are non-decreasing in trace order. -/
theorem trace_first_navigate_monotone (url : String) (now0 : Nat)
    (st0 : CaptureState) (events : List (Nat × CaptureEvent))
    (hmono : List.Chain (fun a c => a ≤ c) now0 (events.map Prod.fst)) :
    (runCapture events (startRecording now0 url st0)).steps.head? =
      some ⟨0, .navigate url⟩ ∧
    List.Chain' (fun a b : Step => a.t ≤ b.t)
      (runCapture events (startRecording now0 url st0)).steps := by
  have hsteps0 : (startRecording now0 url st0).steps =
      [⟨0, .navigate url⟩] := by
    unfold startRecording
    rw [addStep_steps_of_rec _ _ _ rfl]
    simp [Nat.sub_self]
  have hstart0 : (startRecording now0 url st0).startTime = now0 := by
    unfold startRecording
    rw [addStep_startTime]
  have h0 : CaptureInv now0 url now0 (startRecording now0 url st0) := by
    refine ⟨hstart0, ?_, ?_, ?_⟩
    · rw [hsteps0]
      rfl
    · rw [hsteps0]
      exact List.chain'_singleton _
    · intro s hs
      rw [hsteps0] at hs
      simp only [List.mem_singleton] at hs
      subst hs
      exact Nat.zero_le _
  obtain ⟨b2, hinv⟩ := runCapture_inv events _ now0 h0 hmono
  exact ⟨hinv.2.1, hinv.2.2.1⟩

/-- C7 witness: a session started at clock 100 with an input event at 105
and the debounce firing at 1105. -/
theorem trace_first_navigate_monotone_witness :
    (runCapture [(105, CaptureEvent.input true "hi"),
        (1105, CaptureEvent.fire)]
      (startRecording 100 "https://a.example/"
        initialCaptureState)).steps.head? =
      some ⟨0, .navigate "https://a.example/"⟩ :=
  (trace_first_navigate_monotone "https://a.example/" 100
    initialCaptureState
    [(105, CaptureEvent.input true "hi"), (1105, CaptureEvent.fire)]
    (by
      simp only [List.map_cons, List.map_nil]
      exact List.Chain.cons (by omega)
        (List.Chain.cons (by omega) List.Chain.nil))).1

end RecordExt
